import Mathlib

/-!
Shallow embedding of the support-ticket lifecycle engine of
Ecom-micro-template/service-support (Go), covering the shared value objects
(`TicketStatus`, `TicketPriority`, `SenderType`, `TicketNumber`), the `Ticket`
aggregate with its mutating operations, messages, status history and domain
events.  Wall-clock reads (`time.Now()`) and freshly generated UUIDs
(`uuid.New()`) are ambient effects in Go; here every operation receives them
as explicit arguments (`now : Time`, and an id for the at-most-one status
history entry an operation can create).  Timestamps are nanoseconds since the
Unix epoch, matching Go's `time.Time`/`UnixNano`.
-/

deriving instance DecidableEq for Except

namespace Support

/-- UUIDs are modelled as naturals; `0` stands for `uuid.Nil`. -/
abbrev UUID := Nat

/-- Time instants in nanoseconds since the Unix epoch (Go `time.Time`). -/
abbrev Time := Nat

/-- One hour in nanoseconds (Go `time.Hour`). -/
def hourNs : Nat := 3600 * 1000000000

/-- One day in nanoseconds. -/
def dayNs : Nat := 24 * hourNs

/-- TicketStatus mirrors `shared.TicketStatus` (part_003): the five enumerated
status values of a support ticket. -/
inductive TicketStatus
  | open_
  | pending
  | inProgress
  | resolved
  | closed
deriving DecidableEq, Repr, Fintype

/-- Go string value of a status (`string(s)`), as used in event payloads. -/
def TicketStatus.asString : TicketStatus → String
  | .open_ => "open"
  | .pending => "pending"
  | .inProgress => "in_progress"
  | .resolved => "resolved"
  | .closed => "closed"

/-- validTransitions mirrors the `validTransitions` map of part_003: the
allowed state transitions of the status state machine. -/
def validTransitions : TicketStatus → List TicketStatus
  | .open_ => [.pending, .inProgress, .resolved]
  | .pending => [.open_, .inProgress, .resolved]
  | .inProgress => [.pending, .resolved]
  | .resolved => [.closed, .open_]
  | .closed => []

/-- CanTransitionTo mirrors `TicketStatus.CanTransitionTo`: membership of the
target in the adjacency list of the current status. -/
def TicketStatus.CanTransitionTo (s target : TicketStatus) : Bool :=
  (validTransitions s).contains target

/-- ValidTransitions mirrors `TicketStatus.ValidTransitions`. -/
def TicketStatus.ValidTransitions (s : TicketStatus) : List TicketStatus :=
  validTransitions s

/-- IsTerminal mirrors `TicketStatus.IsTerminal`: no outgoing transitions. -/
def TicketStatus.IsTerminal (s : TicketStatus) : Bool :=
  s.ValidTransitions.length == 0

/-- IsOpen mirrors `TicketStatus.IsOpen`. -/
def TicketStatus.IsOpen (s : TicketStatus) : Bool := s == .open_

/-- IsPending mirrors `TicketStatus.IsPending`. -/
def TicketStatus.IsPending (s : TicketStatus) : Bool := s == .pending

/-- IsInProgress mirrors `TicketStatus.IsInProgress`. -/
def TicketStatus.IsInProgress (s : TicketStatus) : Bool := s == .inProgress

/-- IsResolved mirrors `TicketStatus.IsResolved`. -/
def TicketStatus.IsResolved (s : TicketStatus) : Bool := s == .resolved

/-- IsClosed mirrors `TicketStatus.IsClosed`. -/
def TicketStatus.IsClosed (s : TicketStatus) : Bool := s == .closed

/-- IsActive mirrors `TicketStatus.IsActive`: not resolved and not closed. -/
def TicketStatus.IsActive (s : TicketStatus) : Bool :=
  s != .resolved && s != .closed

/-- ParseTicketStatus mirrors `shared.ParseTicketStatus`; `none` is the error
case for strings that are not one of the five valid status values. -/
def ParseTicketStatus : String → Option TicketStatus
  | "open" => some .open_
  | "pending" => some .pending
  | "in_progress" => some .inProgress
  | "resolved" => some .resolved
  | "closed" => some .closed
  | _ => none

/-- TicketPriority mirrors `shared.TicketPriority` (part_001): the four
enumerated priority values. -/
inductive TicketPriority
  | low
  | normal
  | high
  | urgent
deriving DecidableEq, Repr, Fintype

/-- Go string value of a priority (`string(p)`). -/
def TicketPriority.asString : TicketPriority → String
  | .low => "low"
  | .normal => "normal"
  | .high => "high"
  | .urgent => "urgent"

/-- SLAHours mirrors `TicketPriority.SLAHours`: low=48, normal=24, high=8,
urgent=4 (the invalid-string default of 24 cannot arise for the enum). -/
def TicketPriority.SLAHours : TicketPriority → Nat
  | .low => 48
  | .normal => 24
  | .high => 8
  | .urgent => 4

/-- SLADuration mirrors `TicketPriority.SLADuration` (nanoseconds). -/
def TicketPriority.SLADuration (p : TicketPriority) : Nat :=
  p.SLAHours * hourNs

/-- CalculateSLADeadline mirrors `TicketPriority.CalculateSLADeadline`:
deadline = from + duration(priority). -/
def TicketPriority.CalculateSLADeadline (p : TicketPriority) (t : Time) : Time :=
  t + p.SLADuration

/-- Severity mirrors `TicketPriority.Severity`: urgent=4, high=3, normal=2,
low=1. -/
def TicketPriority.Severity : TicketPriority → Nat
  | .urgent => 4
  | .high => 3
  | .normal => 2
  | .low => 1

/-- ParseTicketPriority mirrors `shared.ParseTicketPriority`; `none` is the
error case for invalid priority strings. -/
def ParseTicketPriority : String → Option TicketPriority
  | "low" => some .low
  | "normal" => some .normal
  | "high" => some .high
  | "urgent" => some .urgent
  | _ => none

/-- SenderType mirrors `shared.SenderType` (part_002). -/
inductive SenderType
  | customer
  | agent
  | system
deriving DecidableEq, Repr, Fintype

/-- IsAgent mirrors `SenderType.IsAgent`. -/
def SenderType.IsAgent (t : SenderType) : Bool := t == .agent

/-- IsCustomer mirrors `SenderType.IsCustomer`. -/
def SenderType.IsCustomer (t : SenderType) : Bool := t == .customer

/-- ParseSenderType mirrors `shared.ParseSenderType`. -/
def ParseSenderType : String → Option SenderType
  | "customer" => some .customer
  | "agent" => some .agent
  | "system" => some .system
  | _ => none

/-- TicketNumber mirrors the `shared.TicketNumber` value object (part_004). -/
structure TicketNumber where
  value : String
deriving DecidableEq, Repr

/-- Decides the Go regular expression `^TKT-\d{8}-\d{4}$` on a string. -/
def ticketNumberShape (s : String) : Bool :=
  let cs := s.toList
  cs.length == 17 &&
  cs.take 4 == ['T', 'K', 'T', '-'] &&
  ((cs.drop 4).take 8).all Char.isDigit &&
  (cs.drop 12).take 1 == ['-'] &&
  (cs.drop 13).all Char.isDigit

/-- Character-level uppercase, the effect of Go `strings.ToUpper` on the
strings in play. -/
def goToUpper (s : String) : String := String.mk (s.toList.map Char.toUpper)

/-- Whitespace trimming on both ends, the effect of Go `strings.TrimSpace`. -/
def goTrimSpace (s : String) : String :=
  String.mk (((s.toList.dropWhile Char.isWhitespace).reverse.dropWhile
    Char.isWhitespace).reverse)

/-- NewTicketNumber mirrors `shared.NewTicketNumber`: uppercase, trim,
and validate against the `TKT-YYYYMMDD-XXXX` pattern. -/
def NewTicketNumber (number : String) : Option TicketNumber :=
  let n := goTrimSpace (goToUpper number)
  if ticketNumberShape n then some ⟨n⟩ else none

/-- Converts days since the Unix epoch to a civil (year, month, day) date,
as Go's time formatting does for dates at or after 1970-01-01. -/
def civilFromDays (z : Nat) : Nat × Nat × Nat :=
  let z' := z + 719468
  let era := z' / 146097
  let doe := z' % 146097
  let yoe := (doe - doe / 1460 + doe / 36524 - doe / 146097) / 365
  let y := yoe + era * 400
  let doy := doe - (365 * yoe + yoe / 4 - yoe / 100)
  let mp := (5 * doy + 2) / 153
  let d := doy - (153 * mp + 2) / 5 + 1
  let m := if mp < 10 then mp + 3 else mp - 9
  (if m ≤ 2 then y + 1 else y, m, d)

/-- Zero-pads the decimal representation of `n` to width `w`. -/
def padZeros (w n : Nat) : String :=
  let s := toString n
  if s.length < w then String.mk (List.replicate (w - s.length) '0') ++ s else s

/-- Formats a time instant as `YYYYMMDD` (Go layout `20060102`). -/
def formatYYYYMMDD (now : Time) : String :=
  let c := civilFromDays (now / dayNs)
  padZeros 4 c.1 ++ padZeros 2 c.2.1 ++ padZeros 2 c.2.2

/-- GenerateTicketNumber mirrors `shared.GenerateTicketNumber`:
`TKT-<date>-<UnixNano mod 10000>`. -/
def GenerateTicketNumber (now : Time) : TicketNumber :=
  ⟨"TKT-" ++ formatYYYYMMDD now ++ "-" ++ padZeros 4 (now % 10000)⟩

/-- Attachment mirrors `ticket.Attachment` (part_006). -/
structure Attachment where
  id : String
  name : String
  url : String
  size : Int
  mimeType : String
deriving DecidableEq, Repr

/-- Message mirrors the `ticket.Message` entity (part_006). -/
structure Message where
  id : UUID
  ticketID : UUID
  senderType : SenderType
  senderID : Option UUID
  senderName : String
  senderEmail : String
  content : String
  attachments : List Attachment
  isInternal : Bool
  readAt : Option Time
  createdAt : Time
deriving DecidableEq, Repr

/-- SenderType accessor named as the Go getter `Message.SenderType`. -/
def Message.SenderTypeOf (m : Message) : SenderType := m.senderType

/-- StatusHistory mirrors the `ticket.StatusHistory` entity (part_005). -/
structure StatusHistory where
  id : UUID
  ticketID : UUID
  fromStatus : TicketStatus
  toStatus : TicketStatus
  changedBy : Option UUID
  changedByName : String
  notes : String
  createdAt : Time
deriving DecidableEq, Repr

/-- NewStatusHistory mirrors `ticket.NewStatusHistory`; the Go function draws
`id` from `uuid.New()` and `createdAt` from `time.Now()`, passed explicitly
here as `id` and `now`. -/
def NewStatusHistory (id : UUID) (ticketID : UUID) (fromS toS : TicketStatus)
    (changedBy : Option UUID) (notes : String) (now : Time) : StatusHistory :=
  { id := id, ticketID := ticketID, fromStatus := fromS, toStatus := toS,
    changedBy := changedBy, changedByName := "", notes := notes, createdAt := now }

/-- EventData is the payload of each domain event variant (part_006). -/
inductive EventData
  | created (ticketNumber subject : String)
  | assigned (agentID : UUID)
  | statusChanged (newStatus : String)
  | escalated (newPriority reason : String)
  | resolvedTicket (resolution : String)
  | closedTicket
  | slaBreached (deadline : Time)
deriving DecidableEq, Repr

/-- Event mirrors the `ticket.Event` interface values: every event carries an
occurrence time and the aggregate id. -/
structure Event where
  occurredAt : Time
  aggregateID : UUID
  data : EventData
deriving DecidableEq, Repr

/-- EventType mirrors the Go `EventType()` methods. -/
def Event.EventType (e : Event) : String :=
  match e.data with
  | .created _ _ => "ticket.created"
  | .assigned _ => "ticket.assigned"
  | .statusChanged _ => "ticket.status_changed"
  | .escalated _ _ => "ticket.escalated"
  | .resolvedTicket _ => "ticket.resolved"
  | .closedTicket => "ticket.closed"
  | .slaBreached _ => "ticket.sla_breached"

/-- NewTicketCreatedEvent mirrors the Go constructor (time passed in). -/
def NewTicketCreatedEvent (now : Time) (ticketID : UUID)
    (ticketNumber subject : String) : Event :=
  ⟨now, ticketID, .created ticketNumber subject⟩

/-- NewTicketAssignedEvent mirrors the Go constructor. -/
def NewTicketAssignedEvent (now : Time) (ticketID agentID : UUID) : Event :=
  ⟨now, ticketID, .assigned agentID⟩

/-- NewTicketStatusChangedEvent mirrors the Go constructor. -/
def NewTicketStatusChangedEvent (now : Time) (ticketID : UUID)
    (newStatus : String) : Event :=
  ⟨now, ticketID, .statusChanged newStatus⟩

/-- NewTicketEscalatedEvent mirrors the Go constructor. -/
def NewTicketEscalatedEvent (now : Time) (ticketID : UUID)
    (newPriority reason : String) : Event :=
  ⟨now, ticketID, .escalated newPriority reason⟩

/-- NewTicketResolvedEvent mirrors the Go constructor. -/
def NewTicketResolvedEvent (now : Time) (ticketID : UUID)
    (resolution : String) : Event :=
  ⟨now, ticketID, .resolvedTicket resolution⟩

/-- NewTicketClosedEvent mirrors the Go constructor. -/
def NewTicketClosedEvent (now : Time) (ticketID : UUID) : Event :=
  ⟨now, ticketID, .closedTicket⟩

/-- TicketError models the error values the aggregate can return: the sentinel
errors of ticket.go plus ad-hoc `errors.New` messages. -/
inductive TicketError
  | errCannotModify
  | errNotAssigned
  | errAlreadyAssigned
  | errMsg (s : String)
deriving DecidableEq, Repr

/-- Ticket mirrors the `ticket.Ticket` aggregate root (ticket.go). -/
structure Ticket where
  id : UUID
  ticketNumber : TicketNumber
  customerID : Option UUID
  guestEmail : String
  guestName : String
  guestPhone : String
  categoryID : Option UUID
  subject : String
  status : TicketStatus
  priority : TicketPriority
  assignedTo : Option UUID
  orderID : Option UUID
  orderNumber : String
  slaDeadline : Option Time
  firstResponseAt : Option Time
  resolvedAt : Option Time
  closedAt : Option Time
  satisfactionRating : Option Int
  satisfactionComment : String
  tags : List String
  messages : List Message
  statusHistory : List StatusHistory
  createdAt : Time
  updatedAt : Time
  events : List Event
deriving DecidableEq, Repr

/-- TicketParams mirrors `ticket.TicketParams`. -/
structure TicketParams where
  id : UUID
  ticketNumber : String
  customerID : Option UUID
  guestEmail : String
  guestName : String
  guestPhone : String
  categoryID : Option UUID
  subject : String
  priority : String
  orderID : Option UUID
  orderNumber : String
  tags : List String
  slaHours : Int
deriving DecidableEq, Repr

/-- addEvent mirrors `Ticket.addEvent`. -/
def Ticket.addEvent (t : Ticket) (e : Event) : Ticket :=
  { t with events := t.events ++ [e] }

/-- NewTicket mirrors `ticket.NewTicket`; `now` is the single `time.Now()`
read and `genID` the `uuid.New()` value used when `params.id` is nil. -/
def NewTicket (params : TicketParams) (now : Time) (genID : UUID) :
    Except TicketError Ticket :=
  if params.subject = "" then .error (.errMsg "subject is required")
  else if params.customerID = none && params.guestEmail = "" then
    .error (.errMsg "customer or guest email is required")
  else
    let id := if params.id = 0 then genID else params.id
    let generated := GenerateTicketNumber now
    let ticketNumber :=
      if params.ticketNumber ≠ "" then
        match NewTicketNumber params.ticketNumber with
        | some tn => tn
        | none => generated
      else generated
    let priority :=
      if params.priority ≠ "" then
        match ParseTicketPriority params.priority with
        | some p => p
        | none => TicketPriority.normal
      else TicketPriority.normal
    let slaDeadline :=
      if params.slaHours > 0 then now + params.slaHours.toNat * hourNs
      else priority.CalculateSLADeadline now
    let ticket : Ticket :=
      { id := id, ticketNumber := ticketNumber, customerID := params.customerID,
        guestEmail := params.guestEmail, guestName := params.guestName,
        guestPhone := params.guestPhone, categoryID := params.categoryID,
        subject := params.subject, status := .open_, priority := priority,
        assignedTo := none, orderID := params.orderID,
        orderNumber := params.orderNumber, slaDeadline := some slaDeadline,
        firstResponseAt := none, resolvedAt := none, closedAt := none,
        satisfactionRating := none, satisfactionComment := "",
        tags := params.tags, messages := [], statusHistory := [],
        createdAt := now, updatedAt := now, events := [] }
    .ok (ticket.addEvent
      (NewTicketCreatedEvent now id ticketNumber.value params.subject))

/-- IsOverdue mirrors `Ticket.IsOverdue` (time passed in; Go uses a strict
`After` comparison). -/
def Ticket.IsOverdue (t : Ticket) (now : Time) : Bool :=
  match t.slaDeadline with
  | none => false
  | some d => if !t.status.IsActive then false else decide (d < now)

/-- transitionStatus mirrors `Ticket.transitionStatus`: check the Status
Policy; on success append a history entry (fresh id `hid`), set the status,
stamp `updatedAt` and buffer a StatusChanged event. -/
def Ticket.transitionStatus (t : Ticket) (target : TicketStatus)
    (changedBy : Option UUID) (notes : String) (now : Time) (hid : UUID) :
    Except TicketError Ticket :=
  if !t.status.CanTransitionTo target then .error .errCannotModify
  else
    let history := NewStatusHistory hid t.id t.status target changedBy notes now
    let t' := { t with statusHistory := t.statusHistory ++ [history],
                       status := target, updatedAt := now }
    .ok (t'.addEvent (NewTicketStatusChangedEvent now t.id target.asString))

/-- Assign mirrors `Ticket.Assign` (the Go code ignores the error of the
implicit transition, which cannot fail from `open`). -/
def Ticket.Assign (t : Ticket) (agentID : UUID) (changedBy : Option UUID)
    (now : Time) (hid : UUID) : Except TicketError Ticket :=
  if t.status.IsClosed then .error .errCannotModify
  else
    let t1 := { t with assignedTo := some agentID, updatedAt := now }
    let t2 :=
      if t1.status.IsOpen then
        match t1.transitionStatus .inProgress changedBy "Assigned to agent" now hid with
        | .ok u => u
        | .error _ => t1
      else t1
    .ok (t2.addEvent (NewTicketAssignedEvent now t.id agentID))

/-- Unassign mirrors `Ticket.Unassign`. -/
def Ticket.Unassign (t : Ticket) (changedBy : Option UUID) (now : Time)
    (hid : UUID) : Except TicketError Ticket :=
  if t.assignedTo = none then .error .errNotAssigned
  else
    let t1 := { t with assignedTo := none, updatedAt := now }
    let t2 :=
      if t1.status.IsInProgress then
        match t1.transitionStatus .open_ changedBy "Unassigned" now hid with
        | .ok u => u
        | .error _ => t1
      else t1
    .ok t2

/-- Escalate mirrors `Ticket.Escalate`: one severity step up, SLA deadline
recomputed from now. -/
def Ticket.Escalate (t : Ticket) (reason : String) (changedBy : Option UUID)
    (now : Time) : Except TicketError Ticket :=
  if t.status.IsClosed then .error .errCannotModify
  else
    let currentSeverity := t.priority.Severity
    if currentSeverity ≥ 4 then
      .error (.errMsg "ticket is already at highest priority")
    else
      let newPriority :=
        if currentSeverity < 2 then TicketPriority.normal
        else if currentSeverity < 3 then TicketPriority.high
        else TicketPriority.urgent
      let t1 := { t with priority := newPriority,
                         slaDeadline := some (newPriority.CalculateSLADeadline now),
                         updatedAt := now }
      .ok (t1.addEvent
        (NewTicketEscalatedEvent now t.id newPriority.asString reason))

/-- SetPending mirrors `Ticket.SetPending`. -/
def Ticket.SetPending (t : Ticket) (reason : String) (changedBy : Option UUID)
    (now : Time) (hid : UUID) : Except TicketError Ticket :=
  t.transitionStatus .pending changedBy reason now hid

/-- Resolve mirrors `Ticket.Resolve`. -/
def Ticket.Resolve (t : Ticket) (resolution : String) (changedBy : Option UUID)
    (now : Time) (hid : UUID) : Except TicketError Ticket :=
  match t.transitionStatus .resolved changedBy resolution now hid with
  | .error e => .error e
  | .ok t1 =>
    let t2 := { t1 with resolvedAt := some now }
    .ok (t2.addEvent (NewTicketResolvedEvent now t2.id resolution))

/-- CloseTicket mirrors `Ticket.Close`. -/
def Ticket.CloseTicket (t : Ticket) (changedBy : Option UUID) (now : Time)
    (hid : UUID) : Except TicketError Ticket :=
  match t.transitionStatus .closed changedBy "Ticket closed" now hid with
  | .error e => .error e
  | .ok t1 =>
    let t2 := { t1 with closedAt := some now }
    .ok (t2.addEvent (NewTicketClosedEvent now t2.id))

/-- Reopen mirrors `Ticket.Reopen`: legal only from `resolved`, clears
`resolvedAt` before delegating to the transition primitive. -/
def Ticket.Reopen (t : Ticket) (reason : String) (changedBy : Option UUID)
    (now : Time) (hid : UUID) : Except TicketError Ticket :=
  if !t.status.IsResolved then .error .errCannotModify
  else
    Ticket.transitionStatus { t with resolvedAt := none } .open_ changedBy reason now hid

/-- AddMessage mirrors `Ticket.AddMessage`: append, stamp `updatedAt`, and
record the first agent response. -/
def Ticket.AddMessage (t : Ticket) (msg : Message) (now : Time) : Ticket :=
  let t1 := { t with messages := t.messages ++ [msg], updatedAt := now }
  if t1.firstResponseAt = none && msg.senderType.IsAgent then
    { t1 with firstResponseAt := some now }
  else t1

/-- RateSatisfaction mirrors `Ticket.RateSatisfaction`. -/
def Ticket.RateSatisfaction (t : Ticket) (rating : Int) (comment : String)
    (now : Time) : Except TicketError Ticket :=
  if !t.status.IsResolved && !t.status.IsClosed then
    .error (.errMsg "can only rate resolved or closed tickets")
  else if rating < 1 || rating > 5 then
    .error (.errMsg "rating must be between 1 and 5")
  else
    .ok { t with satisfactionRating := some rating,
                 satisfactionComment := comment, updatedAt := now }

/-- SetCategory mirrors `Ticket.SetCategory`. -/
def Ticket.SetCategory (t : Ticket) (categoryID : UUID) (now : Time) : Ticket :=
  { t with categoryID := some categoryID, updatedAt := now }

/-- AddTag mirrors `Ticket.AddTag`: no duplicate is appended. -/
def Ticket.AddTag (t : Ticket) (tag : String) (now : Time) : Ticket :=
  if t.tags.contains tag then t
  else { t with tags := t.tags ++ [tag], updatedAt := now }

/-- RemoveTag mirrors `Ticket.RemoveTag`: removes the first occurrence and
stamps `updatedAt` only when the tag was present. -/
def Ticket.RemoveTag (t : Ticket) (tag : String) (now : Time) : Ticket :=
  if t.tags.contains tag then
    { t with tags := t.tags.erase tag, updatedAt := now }
  else t

/-- DrainEvents mirrors `Ticket.Events`: return the buffer and clear it. -/
def Ticket.DrainEvents (t : Ticket) : List Event × Ticket :=
  (t.events, { t with events := [] })

/-- Concrete freshly created ticket used to instantiate the theorems: a guest
ticket with default priority created at time 0, as `NewTicket` builds it. -/
def sampleTicket : Ticket :=
  { id := 1, ticketNumber := ⟨"TKT-19700101-0000"⟩, customerID := none,
    guestEmail := "a@b.com", guestName := "", guestPhone := "",
    categoryID := none, subject := "Help", status := .open_,
    priority := .normal, assignedTo := none, orderID := none,
    orderNumber := "", slaDeadline := some (24 * hourNs),
    firstResponseAt := none, resolvedAt := none, closedAt := none,
    satisfactionRating := none, satisfactionComment := "", tags := [],
    messages := [], statusHistory := [], createdAt := 0, updatedAt := 0,
    events := [] }

/-- Concrete low-priority ticket used to instantiate the escalation
theorems. -/
def sampleLow : Ticket :=
  { sampleTicket with priority := .low, slaDeadline := some (48 * hourNs) }

/-- Concrete agent message used to instantiate the first-response theorems. -/
def sampleAgentMsg : Message :=
  { id := 2, ticketID := 1, senderType := .agent, senderID := some 3,
    senderName := "Agent", senderEmail := "ag@e.com", content := "hi",
    attachments := [], isInternal := false, readAt := none, createdAt := 5 }

/-- C1: the Status Policy transition check is exactly the adjacency table —
open→pending,in_progress,resolved; pending→open,in_progress,resolved;
in_progress→pending,resolved; resolved→closed,open; closed→nothing — and
closed is the only terminal status. -/
theorem statusPolicy_adjacency :
    (∀ f t : TicketStatus, f.CanTransitionTo t = true ↔
      ((f = .open_ ∧ (t = .pending ∨ t = .inProgress ∨ t = .resolved)) ∨
       (f = .pending ∧ (t = .open_ ∨ t = .inProgress ∨ t = .resolved)) ∨
       (f = .inProgress ∧ (t = .pending ∨ t = .resolved)) ∨
       (f = .resolved ∧ (t = .closed ∨ t = .open_)))) ∧
    (∀ t : TicketStatus, TicketStatus.closed.CanTransitionTo t = false) ∧
    (∀ s : TicketStatus, s.IsTerminal = true ↔ s = .closed) := by
  decide

/-- C2: for every ticket and every target outside the Status Policy adjacency
table, the internal transition primitive fails with the aggregate's
illegal-transition error (`ErrCannotModify`) and produces no updated ticket —
hence status, history length and `updatedAt` are unchanged and no history
entry or event is written. -/
theorem transition_rejects_illegal (t : Ticket) (target : TicketStatus)
    (changedBy : Option UUID) (notes : String) (now : Time) (hid : UUID)
    (h : t.status.CanTransitionTo target = false) :
    t.transitionStatus target changedBy notes now hid =
      .error .errCannotModify := by
  simp [Ticket.transitionStatus, h]

/-- Witness for C2: a closed ticket rejects the transition back to open. -/
theorem transition_rejects_illegal_witness :
    ({ sampleTicket with status := .closed } :
        Ticket).status.CanTransitionTo .open_ = false ∧
    ({ sampleTicket with status := .closed } : Ticket).transitionStatus .open_
        none "n" 5 9 = .error .errCannotModify :=
  ⟨by decide, transition_rejects_illegal _ _ _ _ _ _ (by decide)⟩

/-- C3: on a non-closed ticket, Assign sets the assigned agent; exactly when
the status is open it implicitly transitions to in_progress through the
transition primitive, appending one history entry with note "Assigned to
agent" and buffering StatusChanged then Assigned events; otherwise only the
Assigned event is buffered; on a closed ticket Assign fails with
`ErrCannotModify` and changes nothing. -/
theorem assign_spec (t : Ticket) (agentID : UUID) (cb : Option UUID)
    (now : Time) (hid : UUID) :
    (t.status = .closed →
      t.Assign agentID cb now hid = .error .errCannotModify) ∧
    (t.status ≠ .closed → ∃ t', t.Assign agentID cb now hid = .ok t' ∧
      t'.assignedTo = some agentID ∧ t'.updatedAt = now ∧
      (t.status = .open_ →
        t'.status = .inProgress ∧
        t'.statusHistory = t.statusHistory ++
          [NewStatusHistory hid t.id .open_ .inProgress cb "Assigned to agent" now] ∧
        t'.events = t.events ++
          [NewTicketStatusChangedEvent now t.id "in_progress",
           NewTicketAssignedEvent now t.id agentID]) ∧
      (t.status ≠ .open_ →
        t'.status = t.status ∧ t'.statusHistory = t.statusHistory ∧
        t'.events = t.events ++ [NewTicketAssignedEvent now t.id agentID])) := by
  constructor
  · intro h
    simp [Ticket.Assign, TicketStatus.IsClosed, h]
  · intro h
    cases hs : t.status with
    | closed => exact absurd hs h
    | open_ =>
      simp [Ticket.Assign, Ticket.transitionStatus, Ticket.addEvent,
        TicketStatus.IsClosed, TicketStatus.IsOpen, TicketStatus.CanTransitionTo,
        validTransitions, TicketStatus.asString, hs]
    | pending =>
      simp [Ticket.Assign, Ticket.addEvent, TicketStatus.IsClosed,
        TicketStatus.IsOpen, hs]
    | inProgress =>
      simp [Ticket.Assign, Ticket.addEvent, TicketStatus.IsClosed,
        TicketStatus.IsOpen, hs]
    | resolved =>
      simp [Ticket.Assign, Ticket.addEvent, TicketStatus.IsClosed,
        TicketStatus.IsOpen, hs]

/-- Witness for C3: assigning agent 7 on the freshly created open sample
ticket succeeds, transitions to in_progress and buffers both events. -/
theorem assign_spec_witness :
    ∃ t', sampleTicket.Assign 7 none 10 9 = .ok t' ∧
      t'.assignedTo = some 7 ∧ t'.updatedAt = 10 ∧
      t'.status = .inProgress ∧
      t'.statusHistory =
        [NewStatusHistory 9 1 .open_ .inProgress none "Assigned to agent" 10] ∧
      t'.events = [NewTicketStatusChangedEvent 10 1 "in_progress",
                   NewTicketAssignedEvent 10 1 7] := by
  obtain ⟨t', h1, h2, h3, h4, -⟩ :=
    (assign_spec sampleTicket 7 none 10 9).2 (by decide)
  obtain ⟨h5, h6, h7⟩ := h4 (by decide)
  exact ⟨t', h1, h2, h3, h5, by simpa [sampleTicket] using h6,
    by simpa [sampleTicket] using h7⟩

/-- Helper: a status different from closed has `IsClosed = false`. -/
theorem isClosed_false_of_ne {s : TicketStatus} (h : s ≠ .closed) :
    s.IsClosed = false := by
  cases s <;> simp_all [TicketStatus.IsClosed]

/-- Iterates Escalate `n` times at time 0 with reason "r" and no actor,
stopping at the first error. -/
def escalateN (t : Ticket) : Nat → Except TicketError Ticket
  | 0 => .ok t
  | n + 1 =>
    match escalateN t n with
    | .ok t' => t'.Escalate "r" none 0
    | .error e => .error e

/-- Counterexample for C4: on a low-priority open ticket created at time 0,
urgent is already reached after THREE Escalate calls and the FOURTH fails
with "already at highest priority" (not four and five as claimed), and the
first call moves `sla_deadline` from creation+48h down to call-time+24h —
at the same instant the deadline strictly DECREASES rather than increases. -/
theorem escalate_claim_counterexample :
    (escalateN sampleLow 3).map Ticket.priority = .ok .urgent ∧
    escalateN sampleLow 4 =
      .error (.errMsg "ticket is already at highest priority") ∧
    (escalateN sampleLow 1).map Ticket.slaDeadline = .ok (some (24 * hourNs)) ∧
    sampleLow.slaDeadline = some (48 * hourNs) ∧
    24 * hourNs < 48 * hourNs := by
  decide

/-- C4 amended: starting from a non-closed ticket with priority low, Escalate
applied three times steps the priority low→normal→high→urgent, one severity
step per call, and the fourth call fails with "already at highest priority";
each successful call recomputes `sla_deadline` to its call time plus the SLA
duration of the new priority (which need not increase the deadline). -/
theorem escalate_chain (t : Ticket) (cb : Option UUID) (r1 r2 r3 r4 : String)
    (n1 n2 n3 n4 : Time) (hst : t.status ≠ .closed) (hp : t.priority = .low) :
    ∃ t1 t2 t3,
      t.Escalate r1 cb n1 = .ok t1 ∧ t1.priority = .normal ∧
      t1.slaDeadline = some (TicketPriority.normal.CalculateSLADeadline n1) ∧
      t1.Escalate r2 cb n2 = .ok t2 ∧ t2.priority = .high ∧
      t2.slaDeadline = some (TicketPriority.high.CalculateSLADeadline n2) ∧
      t2.Escalate r3 cb n3 = .ok t3 ∧ t3.priority = .urgent ∧
      t3.slaDeadline = some (TicketPriority.urgent.CalculateSLADeadline n3) ∧
      t3.Escalate r4 cb n4 =
        .error (.errMsg "ticket is already at highest priority") := by
  have h1 : t.status.IsClosed = false := isClosed_false_of_ne hst
  simp [Ticket.Escalate, Ticket.addEvent, TicketPriority.Severity, hp, h1]

/-- Witness for C4 amended: the concrete low-priority sample ticket. -/
theorem escalate_chain_witness :
    ∃ t1 t2 t3,
      sampleLow.Escalate "a" none 1 = .ok t1 ∧ t1.priority = .normal ∧
      t1.slaDeadline = some (TicketPriority.normal.CalculateSLADeadline 1) ∧
      t1.Escalate "b" none 2 = .ok t2 ∧ t2.priority = .high ∧
      t2.slaDeadline = some (TicketPriority.high.CalculateSLADeadline 2) ∧
      t2.Escalate "c" none 3 = .ok t3 ∧ t3.priority = .urgent ∧
      t3.slaDeadline = some (TicketPriority.urgent.CalculateSLADeadline 3) ∧
      t3.Escalate "d" none 4 =
        .error (.errMsg "ticket is already at highest priority") :=
  escalate_chain sampleLow none "a" "b" "c" "d" 1 2 3 4 (by decide) (by decide)

/-- Priority a new ticket ends up with: the parsed parameter when present and
valid, otherwise normal (the fallback of `NewTicket`). -/
def effectivePriority (params : TicketParams) : TicketPriority :=
  if params.priority ≠ "" then
    match ParseTicketPriority params.priority with
    | some p => p
    | none => TicketPriority.normal
  else TicketPriority.normal

/-- Ticket number a new ticket ends up with: the supplied one when present
and valid, otherwise the generated one (the fallback of `NewTicket`). -/
def effectiveTicketNumber (params : TicketParams) (now : Time) : TicketNumber :=
  if params.ticketNumber ≠ "" then
    match NewTicketNumber params.ticketNumber with
    | some tn => tn
    | none => GenerateTicketNumber now
  else GenerateTicketNumber now

/-- Well-formed creation parameters: guest ticket, subject "Help", all
optional parameters left at their zero values. -/
def okParams : TicketParams :=
  { id := 0, ticketNumber := "", customerID := none, guestEmail := "a@b.com",
    guestName := "", guestPhone := "", categoryID := none, subject := "Help",
    priority := "", orderID := none, orderNumber := "", tags := [],
    slaHours := 0 }

/-- Creation parameters that exercise the explicit ticket-number and SLAHours
overrides of `NewTicket`. -/
def overrideParams : TicketParams :=
  { okParams with
    ticketNumber := "TKT-20260101-0001",
    priority := "low",
    slaHours := 1 }

/-- Counterexample for C5: with an explicit valid ticket number and
`SLAHours = 1`, creation succeeds but the ticket keeps the supplied number
(not a generated one) and its SLA deadline is creation time + 1h, not
creation time + 48h as the given priority `low` would dictate. -/
theorem newTicket_claim_counterexample :
    (NewTicket overrideParams 0 1).map
      (fun t => (t.ticketNumber, t.slaDeadline)) =
      .ok (⟨"TKT-20260101-0001"⟩, some hourNs) ∧
    (⟨"TKT-20260101-0001"⟩ : TicketNumber) ≠ GenerateTicketNumber 0 ∧
    hourNs ≠ TicketPriority.low.CalculateSLADeadline 0 := by
  decide

/-- C5 amended: creation fails exactly when the subject is empty or owner
info is absent; on success the ticket has status open, the supplied ticket
number when a valid one is given (otherwise a generated one), SLA deadline =
creation time + SLAHours hours when the SLAHours parameter is positive and
otherwise creation time + the SLA duration of the given priority (default
normal; low=48h, normal=24h, high=8h, urgent=4h), and a Created event in its
event buffer. -/
theorem newTicket_spec (params : TicketParams) (now : Time) (genID : UUID) :
    ((∃ e, NewTicket params now genID = .error e) ↔
      (params.subject = "" ∨
        (params.customerID = none ∧ params.guestEmail = ""))) ∧
    (∀ t, NewTicket params now genID = .ok t →
      t.status = .open_ ∧ t.createdAt = now ∧ t.updatedAt = now ∧
      t.ticketNumber = effectiveTicketNumber params now ∧
      t.priority = effectivePriority params ∧
      t.slaDeadline = some (if params.slaHours > 0 then
          now + params.slaHours.toNat * hourNs
        else (effectivePriority params).CalculateSLADeadline now) ∧
      t.firstResponseAt = none ∧ t.resolvedAt = none ∧ t.closedAt = none ∧
      t.events =
        [NewTicketCreatedEvent now t.id t.ticketNumber.value params.subject]) := by
  by_cases hsub : params.subject = ""
  · simp [NewTicket, hsub]
  · by_cases hown : params.customerID = none ∧ params.guestEmail = ""
    · simp [NewTicket, hsub, hown.1, hown.2]
    · rw [Classical.not_and_iff_or_not_not] at hown
      rcases hown with hcust | hmail
      · simp [NewTicket, Ticket.addEvent, effectiveTicketNumber,
          effectivePriority, hsub, hcust]
      · simp [NewTicket, Ticket.addEvent, effectiveTicketNumber,
          effectivePriority, hsub, hmail]

/-- Witness for C5 amended: well-formed guest parameters produce an open
ticket. -/
theorem newTicket_spec_witness :
    (NewTicket okParams 0 7).map Ticket.status = .ok .open_ := by
  cases e : NewTicket okParams 0 7 with
  | error err =>
    have h := (newTicket_spec okParams 0 7).1.mp ⟨err, e⟩
    exact absurd h (by decide)
  | ok t =>
    have h := ((newTicket_spec okParams 0 7).2 t e).1
    simp [Except.map, e, h]

/-- Helper: a successful transition produces exactly the updated record of
`transitionStatus` — new status, one appended history entry, new
`updatedAt`, one appended StatusChanged event; every other field is kept. -/
theorem transitionStatus_ok_eq {t : Ticket} {target : TicketStatus}
    {cb : Option UUID} {notes : String} {now : Time} {hid : UUID} {t' : Ticket}
    (h : t.transitionStatus target cb notes now hid = .ok t') :
    t' = { t with
      status := target,
      statusHistory := t.statusHistory ++
        [NewStatusHistory hid t.id t.status target cb notes now],
      updatedAt := now,
      events := t.events ++
        [NewTicketStatusChangedEvent now t.id target.asString] } := by
  unfold Ticket.transitionStatus at h
  split at h
  · simp at h
  · cases h
    rfl

/-- Helper: a failed transition fails with `ErrCannotModify`. -/
theorem transitionStatus_error_eq {t : Ticket} {target : TicketStatus}
    {cb : Option UUID} {notes : String} {now : Time} {hid : UUID}
    {e : TicketError}
    (h : t.transitionStatus target cb notes now hid = .error e) :
    e = .errCannotModify := by
  unfold Ticket.transitionStatus at h
  split at h
  · cases h
    rfl
  · simp at h

/-- Helper: a successful Assign produces exactly the record Assign builds, in
both the implicit-transition branch and the plain branch. -/
theorem assign_ok_eq {t : Ticket} {a : UUID} {cb : Option UUID} {now : Time}
    {hid : UUID} {t' : Ticket} (h : t.Assign a cb now hid = .ok t') :
    (t.status = .open_ ∧ t' = { t with
      assignedTo := some a,
      status := .inProgress,
      statusHistory := t.statusHistory ++
        [NewStatusHistory hid t.id .open_ .inProgress cb "Assigned to agent" now],
      updatedAt := now,
      events := t.events ++
        [NewTicketStatusChangedEvent now t.id "in_progress",
         NewTicketAssignedEvent now t.id a] }) ∨
    (t.status ≠ .open_ ∧ t.status ≠ .closed ∧ t' = { t with
      assignedTo := some a,
      updatedAt := now,
      events := t.events ++ [NewTicketAssignedEvent now t.id a] }) := by
  cases hs : t.status <;>
    simp [Ticket.Assign, Ticket.transitionStatus, Ticket.addEvent,
      TicketStatus.IsClosed, TicketStatus.IsOpen, TicketStatus.CanTransitionTo,
      validTransitions, TicketStatus.asString, NewStatusHistory, hs] at h <;>
    simp [hs, ← h, NewStatusHistory]

/-- Helper: a successful Unassign only clears the assignment and stamps
`updatedAt`: the implicit transition back to open that the code attempts from
in_progress always fails the Status Policy check (in_progress→open is not in
the adjacency table) and its error is discarded. -/
theorem unassign_ok_eq {t : Ticket} {cb : Option UUID} {now : Time}
    {hid : UUID} {t' : Ticket} (h : t.Unassign cb now hid = .ok t') :
    t' = { t with assignedTo := none, updatedAt := now } := by
  unfold Ticket.Unassign at h
  split at h
  · simp at h
  · cases h
    cases hs : t.status <;>
      simp [Ticket.transitionStatus, Ticket.addEvent,
        TicketStatus.IsInProgress, TicketStatus.CanTransitionTo,
        validTransitions, TicketStatus.asString, NewStatusHistory, hs]

/-- Helper: a successful Escalate produces exactly the record Escalate
builds, for some new priority. -/
theorem escalate_ok_eq {t : Ticket} {r : String} {cb : Option UUID}
    {now : Time} {t' : Ticket} (h : t.Escalate r cb now = .ok t') :
    ∃ p : TicketPriority, t' = { t with
      priority := p,
      slaDeadline := some (p.CalculateSLADeadline now),
      updatedAt := now,
      events := t.events ++ [NewTicketEscalatedEvent now t.id p.asString r] } := by
  unfold Ticket.Escalate at h
  split at h
  · simp at h
  · cases hp : t.priority <;>
      simp [TicketPriority.Severity, Ticket.addEvent, hp] at h <;>
      subst h <;>
      exact ⟨_, rfl⟩

/-- Helper: a successful Resolve produces exactly the record Resolve builds:
the transition to resolved plus the `resolvedAt` stamp and Resolved event. -/
theorem resolve_ok_eq {t : Ticket} {res : String} {cb : Option UUID}
    {now : Time} {hid : UUID} {t' : Ticket}
    (h : t.Resolve res cb now hid = .ok t') :
    t' = { t with
      status := .resolved,
      statusHistory := t.statusHistory ++
        [NewStatusHistory hid t.id t.status .resolved cb res now],
      updatedAt := now,
      resolvedAt := some now,
      events := t.events ++
        [NewTicketStatusChangedEvent now t.id "resolved",
         NewTicketResolvedEvent now t.id res] } := by
  unfold Ticket.Resolve at h
  cases htr : t.transitionStatus .resolved cb res now hid with
  | error e => rw [htr] at h; simp at h
  | ok t1 =>
    rw [htr] at h
    cases h
    rw [transitionStatus_ok_eq htr]
    simp [Ticket.addEvent, TicketStatus.asString]

/-- Helper: a successful Close produces exactly the record Close builds. -/
theorem closeTicket_ok_eq {t : Ticket} {cb : Option UUID} {now : Time}
    {hid : UUID} {t' : Ticket} (h : t.CloseTicket cb now hid = .ok t') :
    t' = { t with
      status := .closed,
      statusHistory := t.statusHistory ++
        [NewStatusHistory hid t.id t.status .closed cb "Ticket closed" now],
      updatedAt := now,
      closedAt := some now,
      events := t.events ++
        [NewTicketStatusChangedEvent now t.id "closed",
         NewTicketClosedEvent now t.id] } := by
  unfold Ticket.CloseTicket at h
  cases htr : t.transitionStatus .closed cb "Ticket closed" now hid with
  | error e => rw [htr] at h; simp at h
  | ok t1 =>
    rw [htr] at h
    cases h
    rw [transitionStatus_ok_eq htr]
    simp [Ticket.addEvent, TicketStatus.asString]

/-- Helper: a successful Reopen implies the ticket was resolved, and produces
exactly the record Reopen builds: `resolvedAt` cleared, status open, one
history entry from resolved to open. -/
theorem reopen_ok_eq {t : Ticket} {reason : String} {cb : Option UUID}
    {now : Time} {hid : UUID} {t' : Ticket}
    (h : t.Reopen reason cb now hid = .ok t') :
    t.status = .resolved ∧ t' = { t with
      resolvedAt := none,
      status := .open_,
      statusHistory := t.statusHistory ++
        [NewStatusHistory hid t.id .resolved .open_ cb reason now],
      updatedAt := now,
      events := t.events ++ [NewTicketStatusChangedEvent now t.id "open"] } := by
  cases hs : t.status <;>
    simp [Ticket.Reopen, Ticket.transitionStatus, Ticket.addEvent,
      TicketStatus.IsResolved, TicketStatus.CanTransitionTo, validTransitions,
      TicketStatus.asString, NewStatusHistory, hs] at h <;>
    simp [hs, ← h, NewStatusHistory]

/-- Helper: a successful RateSatisfaction produces exactly the record
RateSatisfaction builds. -/
theorem rateSatisfaction_ok_eq {t : Ticket} {rating : Int} {comment : String}
    {now : Time} {t' : Ticket}
    (h : t.RateSatisfaction rating comment now = .ok t') :
    t' = { t with satisfactionRating := some rating,
                  satisfactionComment := comment, updatedAt := now } := by
  unfold Ticket.RateSatisfaction at h
  split at h
  · simp at h
  · split at h
    · simp at h
    · cases h
      rfl

/-- C6: an agent message added while `firstResponseAt` is unset stamps it
with a time between creation and now (assuming the clock did not run
backwards), and once set no aggregate operation — a further message, Assign,
Unassign, Escalate, SetPending, Resolve, Close, Reopen, RateSatisfaction,
the transition primitive, SetCategory, AddTag or RemoveTag — changes or
clears it. -/
theorem firstResponse_once (t : Ticket) (msg : Message) (now : Time) :
    (t.firstResponseAt = none → msg.senderType = .agent → t.createdAt ≤ now →
      ∃ r, (t.AddMessage msg now).firstResponseAt = some r ∧
        t.createdAt ≤ r ∧ r ≤ now) ∧
    (∀ x, t.firstResponseAt = some x →
      (t.AddMessage msg now).firstResponseAt = some x ∧
      (∀ a cb hid t', t.Assign a cb now hid = .ok t' →
        t'.firstResponseAt = some x) ∧
      (∀ cb hid t', t.Unassign cb now hid = .ok t' →
        t'.firstResponseAt = some x) ∧
      (∀ r cb t', t.Escalate r cb now = .ok t' →
        t'.firstResponseAt = some x) ∧
      (∀ r cb hid t', t.SetPending r cb now hid = .ok t' →
        t'.firstResponseAt = some x) ∧
      (∀ r cb hid t', t.Resolve r cb now hid = .ok t' →
        t'.firstResponseAt = some x) ∧
      (∀ cb hid t', t.CloseTicket cb now hid = .ok t' →
        t'.firstResponseAt = some x) ∧
      (∀ r cb hid t', t.Reopen r cb now hid = .ok t' →
        t'.firstResponseAt = some x) ∧
      (∀ rat c t', t.RateSatisfaction rat c now = .ok t' →
        t'.firstResponseAt = some x) ∧
      (∀ target cb notes hid t',
        t.transitionStatus target cb notes now hid = .ok t' →
        t'.firstResponseAt = some x) ∧
      (∀ c, (t.SetCategory c now).firstResponseAt = some x) ∧
      (∀ s, (t.AddTag s now).firstResponseAt = some x) ∧
      (∀ s, (t.RemoveTag s now).firstResponseAt = some x)) := by
  constructor
  · intro h1 h2 h3
    refine ⟨now, ?_, h3, le_rfl⟩
    simp [Ticket.AddMessage, SenderType.IsAgent, h1, h2]
  · intro x hx
    refine ⟨?_, ?_, ?_, ?_, ?_, ?_, ?_, ?_, ?_, ?_, ?_, ?_, ?_⟩
    · simp [Ticket.AddMessage, hx]
    · intro a cb hid t' h
      rcases assign_ok_eq h with ⟨-, rfl⟩ | ⟨-, -, rfl⟩ <;> exact hx
    · intro cb hid t' h
      rw [unassign_ok_eq h]
      exact hx
    · intro r cb t' h
      obtain ⟨p, rfl⟩ := escalate_ok_eq h
      exact hx
    · intro r cb hid t' h
      have h' : t.transitionStatus .pending cb r now hid = .ok t' := h
      rw [transitionStatus_ok_eq h']
      exact hx
    · intro r cb hid t' h
      rw [resolve_ok_eq h]
      exact hx
    · intro cb hid t' h
      rw [closeTicket_ok_eq h]
      exact hx
    · intro r cb hid t' h
      obtain ⟨-, rfl⟩ := reopen_ok_eq h
      exact hx
    · intro rat c t' h
      rw [rateSatisfaction_ok_eq h]
      exact hx
    · intro target cb notes hid t' h
      rw [transitionStatus_ok_eq h]
      exact hx
    · intro c
      exact hx
    · intro s
      unfold Ticket.AddTag
      split <;> exact hx
    · intro s
      unfold Ticket.RemoveTag
      split <;> exact hx

/-- Witness for C6: the sample agent message stamps the first response of the
sample ticket at its call time. -/
theorem firstResponse_once_witness :
    ∃ r, (sampleTicket.AddMessage sampleAgentMsg 6).firstResponseAt = some r ∧
      sampleTicket.createdAt ≤ r ∧ r ≤ 6 :=
  (firstResponse_once sampleTicket sampleAgentMsg 6).1 (by decide) (by decide)
    (by decide)

/-- C7: Reopen succeeds exactly on a resolved ticket — failing with
`ErrCannotModify` otherwise — clearing `resolvedAt` and transitioning to open
with one appended history entry; hence Resolve followed by Reopen leaves
`resolvedAt` empty and the status open. -/
theorem reopen_spec (t : Ticket) (reason : String) (cb : Option UUID)
    (now : Time) (hid : UUID) :
    (t.status ≠ .resolved →
      t.Reopen reason cb now hid = .error .errCannotModify) ∧
    (t.status = .resolved → ∃ t', t.Reopen reason cb now hid = .ok t' ∧
      t'.resolvedAt = none ∧ t'.status = .open_ ∧
      t'.statusHistory = t.statusHistory ++
        [NewStatusHistory hid t.id .resolved .open_ cb reason now]) ∧
    (∀ res cb1 n1 h1 t1 t2, t.Resolve res cb1 n1 h1 = .ok t1 →
      t1.Reopen reason cb now hid = .ok t2 →
      t2.resolvedAt = none ∧ t2.status = .open_) := by
  refine ⟨?_, ?_, ?_⟩
  · intro h
    have hr : t.status.IsResolved = false := by
      cases hs : t.status <;> simp_all [TicketStatus.IsResolved]
    simp [Ticket.Reopen, hr]
  · intro h
    simp [Ticket.Reopen, Ticket.transitionStatus, Ticket.addEvent,
      TicketStatus.IsResolved, TicketStatus.CanTransitionTo, validTransitions,
      NewStatusHistory, TicketStatus.asString, h]
  · intro res cb1 n1 h1 t1 t2 hres hreo
    obtain ⟨-, rfl⟩ := reopen_ok_eq hreo
    exact ⟨rfl, rfl⟩

/-- Witness for C7: reopening a resolved sample ticket. -/
theorem reopen_spec_witness :
    ∃ t', ({ sampleTicket with status := .resolved, resolvedAt := some 3 } :
        Ticket).Reopen "why" none 5 9 = .ok t' ∧
      t'.resolvedAt = none ∧ t'.status = .open_ ∧
      t'.statusHistory = [NewStatusHistory 9 1 .resolved .open_ none "why" 5] := by
  obtain ⟨t', h1, h2, h3, h4⟩ :=
    (reopen_spec { sampleTicket with status := .resolved, resolvedAt := some 3 }
      "why" none 5 9).2.1 (by decide)
  exact ⟨t', h1, h2, h3, by simpa [sampleTicket] using h4⟩

/-- C8: RateSatisfaction succeeds exactly when the status is resolved or
closed and the rating lies in [1,5], recording rating and comment; otherwise
it fails with a validation error message and, returning no ticket, leaves
the state (including rating and comment) unchanged. -/
theorem rateSatisfaction_spec (t : Ticket) (rating : Int) (comment : String)
    (now : Time) :
    (((t.status = .resolved ∨ t.status = .closed) ∧ 1 ≤ rating ∧ rating ≤ 5) →
      t.RateSatisfaction rating comment now = .ok { t with
        satisfactionRating := some rating, satisfactionComment := comment,
        updatedAt := now }) ∧
    (¬((t.status = .resolved ∨ t.status = .closed) ∧
        1 ≤ rating ∧ rating ≤ 5) →
      ∃ m, t.RateSatisfaction rating comment now = .error (.errMsg m)) := by
  constructor
  · rintro ⟨hs, h1, h5⟩
    have hb : (!t.status.IsResolved && !t.status.IsClosed) = false := by
      rcases hs with h | h <;>
        simp [TicketStatus.IsResolved, TicketStatus.IsClosed, h]
    have hr : (decide (rating < 1) || decide (rating > 5)) = false := by
      simp only [Bool.or_eq_false_iff, decide_eq_false_iff_not, not_lt]
      omega
    simp [Ticket.RateSatisfaction, hb, hr]
  · intro hneg
    unfold Ticket.RateSatisfaction
    split
    · exact ⟨_, rfl⟩
    · split
      · exact ⟨_, rfl⟩
      · exfalso
        apply hneg
        next hb hr =>
          refine ⟨?_, ?_⟩
          · rw [Bool.and_eq_true, Bool.not_eq_true', Bool.not_eq_true'] at hb
            push_neg at hb
            cases hs : t.status <;>
              simp_all [TicketStatus.IsResolved, TicketStatus.IsClosed]
          · simp only [Bool.or_eq_true, decide_eq_true_eq, not_or, not_lt] at hr
            omega

/-- Witness for C8: rating an open ticket fails; rating a resolved one
records the rating. -/
theorem rateSatisfaction_spec_witness :
    (∃ m, sampleTicket.RateSatisfaction 3 "ok" 5 = .error (.errMsg m)) ∧
    ({ sampleTicket with status := .resolved } : Ticket).RateSatisfaction 3
        "ok" 5 = .ok { sampleTicket with
          status := .resolved,
          satisfactionRating := some 3,
          satisfactionComment := "ok",
          updatedAt := 5 } :=
  ⟨(rateSatisfaction_spec sampleTicket 3 "ok" 5).2 (by decide),
   (rateSatisfaction_spec { sampleTicket with status := .resolved } 3 "ok"
      5).1 (by decide)⟩

/-- C9: on a non-closed ticket that already has an assigned agent, Assign
still succeeds and silently overwrites the assignment; and no aggregate
operation — Assign, Unassign, Escalate, SetPending, Resolve, Close, Reopen,
RateSatisfaction, the transition primitive, or ticket creation — ever
returns the declared `ErrAlreadyAssigned`. -/
theorem assign_overwrite_spec (t0 : Ticket) (prev agentID : UUID)
    (cb : Option UUID) (now : Time) (hid : UUID)
    (hnc : t0.status ≠ .closed) (hprev : t0.assignedTo = some prev) :
    (∃ t', t0.Assign agentID cb now hid = .ok t' ∧
      t'.assignedTo = some agentID) ∧
    (∀ (t : Ticket) (target : TicketStatus) (notes reason res comment : String)
       (rating : Int) (params : TicketParams) (gid : UUID),
      t.Assign agentID cb now hid ≠ .error .errAlreadyAssigned ∧
      t.Unassign cb now hid ≠ .error .errAlreadyAssigned ∧
      t.Escalate reason cb now ≠ .error .errAlreadyAssigned ∧
      t.SetPending reason cb now hid ≠ .error .errAlreadyAssigned ∧
      t.Resolve res cb now hid ≠ .error .errAlreadyAssigned ∧
      t.CloseTicket cb now hid ≠ .error .errAlreadyAssigned ∧
      t.Reopen reason cb now hid ≠ .error .errAlreadyAssigned ∧
      t.RateSatisfaction rating comment now ≠ .error .errAlreadyAssigned ∧
      t.transitionStatus target cb notes now hid ≠
        .error .errAlreadyAssigned ∧
      NewTicket params now gid ≠ .error .errAlreadyAssigned) := by
  constructor
  · cases hs : t0.status
    case closed => exact absurd hs hnc
    all_goals
      simp [Ticket.Assign, Ticket.transitionStatus, Ticket.addEvent,
        TicketStatus.IsClosed, TicketStatus.IsOpen, TicketStatus.CanTransitionTo,
        validTransitions, TicketStatus.asString, hs]
  · intro t target notes reason res comment rating params gid
    refine ⟨?_, ?_, ?_, ?_, ?_, ?_, ?_, ?_, ?_, ?_⟩
    · intro hbad
      unfold Ticket.Assign at hbad
      split at hbad <;> simp at hbad
    · intro hbad
      unfold Ticket.Unassign at hbad
      split at hbad <;> simp at hbad
    · intro hbad
      unfold Ticket.Escalate at hbad
      split at hbad
      · simp at hbad
      · cases hp : t.priority <;>
          simp [TicketPriority.Severity, Ticket.addEvent, hp] at hbad
    · intro hbad
      have h' : t.transitionStatus .pending cb reason now hid =
          .error .errAlreadyAssigned := hbad
      simpa using transitionStatus_error_eq h'
    · intro hbad
      unfold Ticket.Resolve at hbad
      cases htr : t.transitionStatus .resolved cb res now hid with
      | error e2 =>
        rw [htr] at hbad
        have he := transitionStatus_error_eq htr
        subst he
        simp at hbad
      | ok t1 =>
        rw [htr] at hbad
        simp at hbad
    · intro hbad
      unfold Ticket.CloseTicket at hbad
      cases htr : t.transitionStatus .closed cb "Ticket closed" now hid with
      | error e2 =>
        rw [htr] at hbad
        have he := transitionStatus_error_eq htr
        subst he
        simp at hbad
      | ok t1 =>
        rw [htr] at hbad
        simp at hbad
    · intro hbad
      unfold Ticket.Reopen at hbad
      split at hbad
      · simp at hbad
      · simpa using transitionStatus_error_eq hbad
    · intro hbad
      unfold Ticket.RateSatisfaction at hbad
      split at hbad
      · simp at hbad
      · split at hbad <;> simp at hbad
    · intro hbad
      simpa using transitionStatus_error_eq hbad
    · intro hbad
      unfold NewTicket at hbad
      split at hbad
      · simp at hbad
      · split at hbad <;> simp at hbad

/-- Witness for C9: reassigning the already-assigned pending sample ticket
overwrites agent 5 with agent 7. -/
theorem assign_overwrite_spec_witness :
    ∃ t', ({ sampleTicket with status := .pending, assignedTo := some 5 } :
        Ticket).Assign 7 none 10 9 = .ok t' ∧ t'.assignedTo = some 7 :=
  (assign_overwrite_spec
    { sampleTicket with status := .pending, assignedTo := some 5 } 5 7 none
    10 9 (by decide) (by decide)).1

/-- C10: AddMessage is total and status-independent — for a ticket in any
status (the status is arbitrary here, including closed) it appends the
message and stamps `updatedAt`, with no error path — and an agent-authored
message sets a null `firstResponseAt` regardless of its internal-note flag,
while customer/system messages or an already-set timestamp leave it
untouched. -/
theorem addMessage_total_spec (t : Ticket) (msg : Message) (now : Time) :
    (t.AddMessage msg now).messages = t.messages ++ [msg] ∧
    (t.AddMessage msg now).updatedAt = now ∧
    (t.firstResponseAt = none ∧ msg.senderType = .agent →
      (t.AddMessage msg now).firstResponseAt = some now) ∧
    (msg.isInternal = true ∧ t.firstResponseAt = none ∧
        msg.senderType = .agent →
      (t.AddMessage msg now).firstResponseAt = some now) ∧
    (t.firstResponseAt ≠ none ∨ msg.senderType ≠ .agent →
      (t.AddMessage msg now).firstResponseAt = t.firstResponseAt) := by
  refine ⟨?_, ?_, ?_, ?_, ?_⟩
  · dsimp only [Ticket.AddMessage]
    split <;> rfl
  · dsimp only [Ticket.AddMessage]
    split <;> rfl
  · rintro ⟨h1, h2⟩
    simp [Ticket.AddMessage, SenderType.IsAgent, h1, h2]
  · rintro ⟨-, h1, h2⟩
    simp [Ticket.AddMessage, SenderType.IsAgent, h1, h2]
  · intro h
    rcases h with h | h
    · simp [Ticket.AddMessage, h]
    · have ha : msg.senderType.IsAgent = false := by
        cases hm : msg.senderType <;> simp_all [SenderType.IsAgent]
      simp [Ticket.AddMessage, ha]

/-- Witness for C10: an internal agent note on a closed ticket is appended
and still stamps the first response. -/
theorem addMessage_total_spec_witness :
    (({ sampleTicket with status := .closed } : Ticket).AddMessage
        { sampleAgentMsg with isInternal := true } 6).messages =
      [{ sampleAgentMsg with isInternal := true }] ∧
    (({ sampleTicket with status := .closed } : Ticket).AddMessage
        { sampleAgentMsg with isInternal := true } 6).firstResponseAt =
      some 6 := by
  refine ⟨?_, ?_⟩
  · have h := (addMessage_total_spec { sampleTicket with status := .closed }
      { sampleAgentMsg with isInternal := true } 6).1
    simpa [sampleTicket] using h
  · exact (addMessage_total_spec { sampleTicket with status := .closed }
      { sampleAgentMsg with isInternal := true } 6).2.2.2.1 ⟨rfl, rfl, rfl⟩

end Support
